import Mathlib

/-!
Shallow embedding of `src/TP_reportes_diarios.py`, a daily sales report
generator: it fetches sales for the current day, fetches a dollar rate for
the prior day, appends one dated sheet with conversion formulas to a
persistent Excel workbook, saves it, and emails the file.

Modelling conventions:
* A worksheet is a list of rows, each row a list of cells, exactly as built
  by the sequence of `ws.append` calls; `openpyxl` cell assignment
  (`ws["F2"] = ...`) is modelled by a padding write into that grid.
  Rows and columns are 1-indexed as in `openpyxl`; an absent cell reads as
  `Cell.empty`.  Cell styling (the thick borders) carries no cell value and
  is not part of the value model.
* Numeric amounts and rates are modelled as `Int`; the Python f-string
  interpolation of the rate (including the interpolation of `None`) is
  modelled by `pyRate`.
* `datetime.now().strftime("%Y-%m-%d")` is modelled by passing the current
  date string explicitly as a parameter.
* The generated Excel formulas are plain strings, as in the source.  A
  separate small formula language (`FExpr` with `parseFormula` and
  `evalFExpr`) gives Excel-like semantics to exactly the formula shapes
  this program generates, so that claims about what a formula computes can
  be stated; a cell holding text has no numeric value, and division by
  zero is an error (`none`).
-/

/-- One sale record as returned by the Odoo export endpoint. -/
structure Sale where
  client : String
  products : String
  amount : Int
  date : String
deriving Repr, DecidableEq

/-- A spreadsheet cell value: text, a number, or an empty (never written) cell.
Formulas are text cells whose string starts with an equals sign, exactly as
written by the source. -/
inductive Cell
  | str (s : String)
  | int (n : Int)
  | empty
deriving Repr, DecidableEq

/-- One worksheet: a title and the grid of rows, in insertion order. -/
structure Sheet where
  title : String
  rows : List (List Cell)
deriving Repr, DecidableEq

/-- The workbook: an ordered collection of sheets. -/
abbrev Workbook := List Sheet

/-- Total 0-indexed lookup in a list, with default `d` out of range. -/
def getAt (d : α) : List α → Nat → α
  | [], _ => d
  | x :: _, 0 => x
  | _ :: xs, i + 1 => getAt d xs i

/-- Apply `f` to the element at 0-indexed position `j`, padding the list
with `d` up to that position if it is shorter.  This models assignment
into a sparse `openpyxl` grid. -/
def modifyAt (d : α) (f : α → α) : List α → Nat → List α
  | [], 0 => [f d]
  | [], j + 1 => d :: modifyAt d f [] j
  | x :: xs, 0 => f x :: xs
  | x :: xs, j + 1 => x :: modifyAt d f xs j

/-- Overwrite the element at 0-indexed position `j` with `v`, padding with
`d` as needed. -/
def setAt (d v : α) (l : List α) (j : Nat) : List α :=
  modifyAt d (fun _ => v) l j

/-- Read the cell at 1-indexed row `r`, column `c` of a worksheet grid. -/
def getCell (rows : List (List Cell)) (r c : Nat) : Cell :=
  getAt Cell.empty (getAt [] rows (r - 1)) (c - 1)

/-- Write the cell at 1-indexed row `r`, column `c` of a worksheet grid,
as `openpyxl` does for an assignment like `worksheet["F2"] = value`. -/
def setCell (rows : List (List Cell)) (r c : Nat) (v : Cell) : List (List Cell) :=
  modifyAt [] (fun row => setAt Cell.empty v row (c - 1)) rows (r - 1)

/-- Python f-string interpolation of the `usd_rate` argument: an `Int`
prints as its decimal digits and `None` prints as the text `None`. -/
def pyRate : Option Int → String
  | some n => toString n
  | none => "None"

/-- The fixed header row written by `add_daily_sheet`. -/
def headerRow : List Cell :=
  [Cell.str "Cliente", Cell.str "Productos", Cell.str "Importe USD", Cell.str "Fecha",
   Cell.str "Importe ARS", Cell.str "Promedio Diario", Cell.str "Acumulado"]

/-- The row appended for one sale.  `maxRow` is the value of `ws.max_row`
at the moment the f-string in the `ws.append([...])` argument list is
evaluated, i.e. the number of rows present BEFORE this row is appended. -/
def saleRow (maxRow : Nat) (usd_rate : Option Int) (sale : Sale) : List Cell :=
  [Cell.str sale.client, Cell.str sale.products, Cell.int sale.amount, Cell.str sale.date,
   Cell.str ("=C" ++ toString maxRow ++ "*" ++ pyRate usd_rate),
   Cell.str "", Cell.str ""]

/-- The `for sale in data: ws.append([...])` loop of `add_daily_sheet`.
The argument of each `ws.append` is evaluated before the append happens,
so the interpolated `ws.max_row` equals the current length of `rows`. -/
def appendSaleRows (usd_rate : Option Int) : List Sale → List (List Cell) → List (List Cell)
  | [], rows => rows
  | sale :: rest, rows =>
      appendSaleRows usd_rate rest (rows ++ [saleRow rows.length usd_rate sale])

/-- `len([s for s in self.workbook.sheetnames if s != worksheet.title])`. -/
def days_count (sheetnames : List String) (title : String) : Nat :=
  (sheetnames.filter (fun s => s ≠ title)).length

/-- `SalesReportExcel._calculate_financials`: writes the daily-average
formula into F2 and the accumulated-total formula into G2 of the given
worksheet.  `sheetnames` is `self.workbook.sheetnames` at call time (the
new sheet included).  Border styling is value-irrelevant and omitted. -/
def calculate_financials (sheetnames : List String) (ws : Sheet) : Sheet :=
  let dc := days_count sheetnames ws.title
  let last_row := ws.rows.length
  let rows1 := setCell ws.rows 2 6 (Cell.str ("=E2/" ++ toString dc))
  let rows2 := setCell rows1 2 7 (Cell.str ("=SUM(E2:E" ++ toString last_row ++ ")"))
  ⟨ws.title, rows2⟩

/-- `SalesReportExcel.add_daily_sheet`: create a sheet named by the current
date, append the header, append one row per sale, then apply
`_calculate_financials` with the workbook already containing the new
sheet. -/
def add_daily_sheet (wb : Workbook) (data : List Sale) (usd_rate : Option Int)
    (sheet_name : String) : Workbook :=
  let ws : Sheet := ⟨sheet_name, appendSaleRows usd_rate data [headerRow]⟩
  let sheetnames := (wb ++ [ws]).map Sheet.title
  wb ++ [calculate_financials sheetnames ws]

/-- `openpyxl.Workbook()`: a fresh workbook holding one default blank
sheet, which is the active sheet. -/
def workbook_new : Workbook := [⟨"Sheet", []⟩]

/-- `SalesReportExcel.__init__`: load the workbook from disk when the file
exists; otherwise create a fresh workbook and remove its default active
sheet, leaving zero sheets. -/
def salesReportExcel_init : Option Workbook → Workbook
  | some wb => wb
  | none => workbook_new.drop 1

/-- Observable outcome of one `DailySalesReport.generate_report` run:
the in-memory workbook at the end of the run, the workbook file content
after the run (`none` when the file never existed), and the recipients
emailed. -/
structure RunResult where
  memWorkbook : Workbook
  finalDisk : Option Workbook
  emailsSent : List String
deriving Repr, DecidableEq

/-- `DailySalesReport.generate_report`, with the fetched inputs made
explicit: `sales_data` is what `get_daily_sales` returned, `usd_rate` is
what `get_historical_rate` returned (it never raises), `disk` the
workbook file before the run, `today` the current date string.  If there
are no sales the run logs and returns without touching the workbook or
sending mail; otherwise it appends the daily sheet, saves, and emails. -/
def generate_report (disk : Option Workbook) (sales_data : List Sale)
    (usd_rate : Option Int) (today : String) : RunResult :=
  let excel := salesReportExcel_init disk
  if sales_data.isEmpty then
    ⟨excel, disk, []⟩
  else
    let wb := add_daily_sheet excel sales_data usd_rate today
    ⟨wb, some wb, ["finanzas@empresa.com"]⟩

/-- The sheet most recently appended to a workbook. -/
def lastSheet (wb : Workbook) : Sheet :=
  wb.getLastD ⟨"", []⟩

/-- One run of the dispatcher as seen across runs: the sales list, the
rate, and the date of that run. -/
abbrev RunInput := List Sale × Option Int × String

/-- A sequence of report runs against the same workbook file: each run
loads the file, possibly appends a sheet, and saves. -/
def runMany : Option Workbook → List RunInput → Option Workbook
  | disk, [] => disk
  | disk, r :: rest => runMany (generate_report disk r.1 r.2.1 r.2.2).finalDisk rest

/-- Sheet titles of the workbook file, empty when the file is absent. -/
def titlesOfDisk (d : Option Workbook) : List String :=
  (d.getD []).map Sheet.title

/-! ### The dollar-rate lookup (`DollarAPI.get_historical_rate`) -/

/-- A minimal JSON value model for the quote-service response body. -/
inductive Json
  | num (v : Int)
  | str (s : String)
  | obj (fields : List (String × Json))

/-- Association-list lookup among the fields of a JSON object. -/
def lookupField : List (String × Json) → String → Option Json
  | [], _ => none
  | (k', v) :: rest, k => if k' = k then some v else lookupField rest k

/-- Python subscript `j[k]`: succeeds only on an object holding the key;
on anything else the subscript raises (modelled as `none`). -/
def Json.lookup : Json → String → Option Json
  | .obj fields, k => lookupField fields k
  | _, _ => none

/-- Outcome of the HTTP request made by `get_historical_rate`: either a
parsed JSON body or a transport/parsing exception. -/
inductive HttpResponse
  | ok (body : Json)
  | transportError (msg : String)

/-- The body of the `try:` block in `get_historical_rate`:
`response.json()['oficial']['value_avg']`.  Each step can raise. -/
def rate_attempt : HttpResponse → Except String Json
  | .transportError e => .error e
  | .ok body =>
    match body.lookup "oficial" with
    | none => .error "KeyError: oficial"
    | some j =>
      match j.lookup "value_avg" with
      | none => .error "KeyError: value_avg"
      | some v => .ok v

/-- `DollarAPI.get_historical_rate`: run the attempt; any exception is
caught, logged, and turned into `None`. -/
def get_historical_rate (resp : HttpResponse) : Option Json :=
  match rate_attempt resp with
  | .ok v => some v
  | .error _ => none

/-! ### Excel-like semantics for the generated formulas

The program generates exactly three formula shapes:
`=C{row}*{literal}`, `=E2/{literal}` and `=SUM(E2:E{row})`.
`parseFormula` recognises them and `evalFExpr` evaluates them against a
grid valuation `column letter -> row -> numeric value`, with `none` for a
cell with no numeric value, an unparseable literal (such as the
interpolated text `None`), or a division by zero. -/

/-- A parsed generated formula. -/
inductive FExpr
  | cellMulLit (col : Char) (row : Nat) (m : Option Int)
  | cellDivLit (col : Char) (row : Nat) (d : Option Int)
  | sumRange (col : Char) (lo hi : Nat)
deriving Repr, DecidableEq

/-- Accumulate decimal digits into a number; fails on a non-digit. -/
def digitsToNatCore : List Char → Nat → Option Nat
  | [], acc => some acc
  | c :: rest, acc =>
      if c.isDigit then digitsToNatCore rest (acc * 10 + (c.toNat - 48)) else none

/-- Parse a nonempty all-digit character list as a natural number. -/
def digitsToNat? : List Char → Option Nat
  | [] => none
  | cs => digitsToNatCore cs 0

/-- Parse an optionally negated decimal integer literal. -/
def intChars? : List Char → Option Int
  | '-' :: rest => (digitsToNat? rest).map (fun n => -(n : Int))
  | cs => (digitsToNat? cs).map (fun n => (n : Int))

/-- Split a character list on a separator character. -/
def splitOnChar (sep : Char) : List Char → List (List Char)
  | [] => [[]]
  | c :: rest =>
    let r := splitOnChar sep rest
    if c = sep then [] :: r
    else
      match r with
      | [] => [[c]]
      | h :: t => (c :: h) :: t

/-- Parse a cell reference such as `E2` into column letter and row. -/
def parseRef (cs : List Char) : Option (Char × Nat) :=
  match cs with
  | c :: rest => if c.isAlpha then (digitsToNat? rest).map (fun n => (c, n)) else none
  | [] => none

/-- Recognise the three generated formula shapes. -/
def parseFormulaChars : List Char → Option FExpr
  | '=' :: 'S' :: 'U' :: 'M' :: '(' :: rest =>
    (match rest.getLast? with
     | some ')' =>
       (match splitOnChar ':' rest.dropLast with
        | [a, b] =>
          (match parseRef a, parseRef b with
           | some (ca, ra), some (cb, rb) =>
             if ca = cb then some (.sumRange ca ra rb) else none
           | _, _ => none)
        | _ => none)
     | _ => none)
  | '=' :: rest =>
    (match splitOnChar '*' rest with
     | [a, m] => (parseRef a).map (fun p => FExpr.cellMulLit p.1 p.2 (intChars? m))
     | _ =>
       (match splitOnChar '/' rest with
        | [a, d] => (parseRef a).map (fun p => FExpr.cellDivLit p.1 p.2 (intChars? d))
        | _ => none))
  | _ => none

/-- Parse a generated formula string. -/
def parseFormula (s : String) : Option FExpr :=
  parseFormulaChars s.data

/-- The 1-indexed rows from `lo` to `hi` inclusive; empty when `hi < lo`. -/
def rangeRows (lo hi : Nat) : List Nat :=
  List.range' lo (hi + 1 - lo)

/-- Sum the valuation of a column over the given rows; any cell without a
numeric value poisons the sum. -/
def sumCells (g : Char → Nat → Option Int) (c : Char) : List Nat → Option Int
  | [] => some 0
  | r :: rs =>
    match g c r, sumCells g c rs with
    | some v, some t => some (v + t)
    | _, _ => none

/-- Evaluate a parsed formula against a grid valuation. -/
def evalFExpr (g : Char → Nat → Option Int) : FExpr → Option Int
  | .cellMulLit c r m =>
    (match g c r, m with
     | some v, some mv => some (v * mv)
     | _, _ => none)
  | .cellDivLit c r d =>
    (match g c r, d with
     | some v, some dv => if dv = 0 then none else some (v / dv)
     | _, _ => none)
  | .sumRange c lo hi => sumCells g c (rangeRows lo hi)

/-- Evaluate a formula string against a grid valuation. -/
def evalFormula (g : Char → Nat → Option Int) (s : String) : Option Int :=
  (parseFormula s).bind (evalFExpr g)

/-- The grid valuation induced by a worksheet: the numeric value of the
cell at the given column letter and row, `none` for text or empty cells. -/
def gridOf (rows : List (List Cell)) : Char → Nat → Option Int :=
  fun c r =>
    match getCell rows r (c.toNat - 64) with
    | Cell.int n => some n
    | _ => none

/-! ### Helper lemmas about the grid primitives -/

lemma getAt_modifyAt_self (d : α) (f : α → α) (l : List α) (j : Nat) :
    getAt d (modifyAt d f l j) j = f (getAt d l j) := by
  induction j generalizing l with
  | zero => cases l <;> rfl
  | succ j ih =>
    cases l with
    | nil => simpa [modifyAt, getAt] using ih []
    | cons x xs => simpa [modifyAt, getAt] using ih xs

lemma getAt_modifyAt_ne (d : α) (f : α → α) (l : List α) {i j : Nat} (h : i ≠ j) :
    getAt d (modifyAt d f l j) i = getAt d l i := by
  induction j generalizing l i with
  | zero =>
    cases l with
    | nil =>
      cases i with
      | zero => exact absurd rfl h
      | succ i => rfl
    | cons x xs =>
      cases i with
      | zero => exact absurd rfl h
      | succ i => rfl
  | succ j ih =>
    cases l with
    | nil =>
      cases i with
      | zero => rfl
      | succ i =>
        simpa [modifyAt, getAt] using ih [] (fun hh => h (by omega))
    | cons x xs =>
      cases i with
      | zero => rfl
      | succ i =>
        simpa [modifyAt, getAt] using ih xs (fun hh => h (by omega))

lemma getAt_append_lt (d : α) (l₁ l₂ : List α) {i : Nat} (h : i < l₁.length) :
    getAt d (l₁ ++ l₂) i = getAt d l₁ i := by
  induction l₁ generalizing i with
  | nil => exact absurd h (Nat.not_lt_zero i)
  | cons x xs ih =>
    cases i with
    | zero => rfl
    | succ i => exact ih (Nat.lt_of_succ_lt_succ h)

lemma getAt_append_length (d : α) (l : List α) (x : α) :
    getAt d (l ++ [x]) l.length = x := by
  induction l with
  | nil => rfl
  | cons y ys ih => simpa [getAt] using ih

/-! ### Helper lemmas about the workbook operations -/

lemma appendSaleRows_length (usd_rate : Option Int) (sales : List Sale)
    (rows : List (List Cell)) :
    (appendSaleRows usd_rate sales rows).length = rows.length + sales.length := by
  induction sales generalizing rows with
  | nil => rfl
  | cons s rest ih =>
    show (appendSaleRows usd_rate rest (rows ++ [saleRow rows.length usd_rate s])).length
        = rows.length + (rest.length + 1)
    rw [ih]
    simp
    omega

lemma getAt_appendSaleRows_lt (usd_rate : Option Int) (sales : List Sale)
    (rows : List (List Cell)) {j : Nat} (h : j < rows.length) :
    getAt [] (appendSaleRows usd_rate sales rows) j = getAt [] rows j := by
  induction sales generalizing rows with
  | nil => rfl
  | cons s rest ih =>
    show getAt [] (appendSaleRows usd_rate rest (rows ++ [saleRow rows.length usd_rate s])) j
        = getAt [] rows j
    rw [ih (rows ++ [saleRow rows.length usd_rate s]) (by simp; omega)]
    exact getAt_append_lt [] rows _ h

lemma getAt_appendSaleRows_data (usd_rate : Option Int) (sales : List Sale)
    (rows : List (List Cell)) (i : Nat) (h : i < sales.length) :
    getAt [] (appendSaleRows usd_rate sales rows) (rows.length + i)
      = saleRow (rows.length + i) usd_rate (sales.get ⟨i, h⟩) := by
  induction sales generalizing rows i with
  | nil => exact absurd h (Nat.not_lt_zero i)
  | cons s rest ih =>
    cases i with
    | zero =>
      show getAt [] (appendSaleRows usd_rate rest (rows ++ [saleRow rows.length usd_rate s]))
          (rows.length + 0) = _
      rw [Nat.add_zero,
        getAt_appendSaleRows_lt usd_rate rest _ (by simp),
        getAt_append_length]
      rfl
    | succ i =>
      have hlen : rows.length + (i + 1) = (rows ++ [saleRow rows.length usd_rate s]).length + i := by
        simp; omega
      show getAt [] (appendSaleRows usd_rate rest (rows ++ [saleRow rows.length usd_rate s]))
          (rows.length + (i + 1)) = _
      rw [hlen, ih _ i (Nat.lt_of_succ_lt_succ h)]
      have : (rows ++ [saleRow rows.length usd_rate s]).length + i = rows.length + (i + 1) := by
        simp; omega
      rw [this]
      rfl

lemma calculate_financials_title (sheetnames : List String) (ws : Sheet) :
    (calculate_financials sheetnames ws).title = ws.title := rfl

lemma setCell_26 (rows : List (List Cell)) (v : Cell) :
    setCell rows 2 6 v = modifyAt [] (fun row => setAt Cell.empty v row 5) rows 1 := rfl

lemma setCell_27 (rows : List (List Cell)) (v : Cell) :
    setCell rows 2 7 v = modifyAt [] (fun row => setAt Cell.empty v row 6) rows 1 := rfl

lemma getCell_calculate_financials_F2 (sheetnames : List String) (ws : Sheet) :
    getCell (calculate_financials sheetnames ws).rows 2 6
      = Cell.str ("=E2/" ++ toString (days_count sheetnames ws.title)) := by
  show getAt Cell.empty (getAt []
      (setCell (setCell ws.rows 2 6 (Cell.str ("=E2/" ++ toString (days_count sheetnames ws.title))))
        2 7 (Cell.str ("=SUM(E2:E" ++ toString ws.rows.length ++ ")"))) 1) 5 = _
  rw [setCell_27, setCell_26, getAt_modifyAt_self, getAt_modifyAt_self]
  simp only [setAt]
  rw [getAt_modifyAt_ne _ _ _ (by decide : (5 : Nat) ≠ 6), getAt_modifyAt_self]

lemma getCell_calculate_financials_G2 (sheetnames : List String) (ws : Sheet) :
    getCell (calculate_financials sheetnames ws).rows 2 7
      = Cell.str ("=SUM(E2:E" ++ toString ws.rows.length ++ ")") := by
  show getAt Cell.empty (getAt []
      (setCell (setCell ws.rows 2 6 (Cell.str ("=E2/" ++ toString (days_count sheetnames ws.title))))
        2 7 (Cell.str ("=SUM(E2:E" ++ toString ws.rows.length ++ ")"))) 1) 6 = _
  rw [setCell_27, getAt_modifyAt_self]
  simp only [setAt]
  rw [getAt_modifyAt_self]

lemma getCell_calculate_financials_of_ne (sheetnames : List String) (ws : Sheet)
    (r c : Nat) (h6 : c ≠ 6) (h7 : c ≠ 7) :
    getCell (calculate_financials sheetnames ws).rows r c = getCell ws.rows r c := by
  show getAt Cell.empty (getAt []
      (setCell (setCell ws.rows 2 6 (Cell.str ("=E2/" ++ toString (days_count sheetnames ws.title))))
        2 7 (Cell.str ("=SUM(E2:E" ++ toString ws.rows.length ++ ")"))) (r - 1)) (c - 1)
    = getAt Cell.empty (getAt [] ws.rows (r - 1)) (c - 1)
  rw [setCell_27, setCell_26]
  by_cases hr : r - 1 = 1
  · rw [hr, getAt_modifyAt_self, getAt_modifyAt_self]
    simp only [setAt]
    rw [getAt_modifyAt_ne _ _ _ (by omega : c - 1 ≠ 6),
      getAt_modifyAt_ne _ _ _ (by omega : c - 1 ≠ 5)]
  · rw [getAt_modifyAt_ne _ _ _ hr, getAt_modifyAt_ne _ _ _ hr]

lemma add_daily_sheet_eq (wb : Workbook) (data : List Sale) (usd_rate : Option Int)
    (sheet_name : String) :
    add_daily_sheet wb data usd_rate sheet_name
      = wb ++ [calculate_financials (wb.map Sheet.title ++ [sheet_name])
                 ⟨sheet_name, appendSaleRows usd_rate data [headerRow]⟩] := by
  simp [add_daily_sheet]

lemma lastSheet_append (wb : Workbook) (s : Sheet) : lastSheet (wb ++ [s]) = s := by
  induction wb with
  | nil => rfl
  | cons x xs ih => simp [lastSheet, List.getLastD]

lemma salesReportExcel_init_eq (disk : Option Workbook) :
    salesReportExcel_init disk = disk.getD [] := by
  cases disk <;> rfl

/-! ### Concrete fixtures used by the claim theorems and witnesses -/

/-- A sale of amount 100, as in the specification's worked scenario. -/
def sale100 : Sale := ⟨"A", "X", 100, "2024-01-01"⟩

/-- A second sale, used to build a sheet with two data rows. -/
def sale200 : Sale := ⟨"B", "Y", 200, "2024-01-02"⟩

/-- A pre-existing sheet from an earlier run. -/
def priorSheet : Sheet := ⟨"2024-01-01", [headerRow]⟩

/-- A grid valuation giving the local-currency column of a two-data-row
sheet the values 1 (row 2) and 5 (row 3). -/
def gTwoRows : Char → Nat → Option Int :=
  fun c r =>
    if c = 'E' ∧ r = 2 then some 1
    else if c = 'E' ∧ r = 3 then some 5
    else none

/-! ### Claim theorems -/

/-- Claim C1.  The claim states that each data row's local-currency formula
is bound to that same row's own source-amount cell and evaluates to
amount times rate, with the single data row of the worked scenario (one
sale of amount 100, rate 1000, fresh workbook) carrying the formula
labelled C2 times 1000 in cell E2.  Evaluating the code at exactly that
input shows cell E2 instead holds the formula multiplying header cell C1
by 1000 (the f-string reads max_row before the row is appended), and that
formula has no numeric value on the sheet's own grid (C1 holds the header
text), so it cannot evaluate to 100 * 1000. -/
theorem c1_first_data_row_references_header_cell :
    getCell (lastSheet (add_daily_sheet ([] : Workbook) [sale100] (some 1000) "2024-01-01")).rows 2 5
      = Cell.str "=C1*1000"
  ∧ getCell (lastSheet (add_daily_sheet ([] : Workbook) [sale100] (some 1000) "2024-01-01")).rows 2 5
      ≠ Cell.str "=C2*1000"
  ∧ parseFormula "=C1*1000" = some (FExpr.cellMulLit 'C' 1 (some 1000))
  ∧ evalFormula (gridOf (lastSheet (add_daily_sheet ([] : Workbook) [sale100] (some 1000) "2024-01-01")).rows)
      "=C1*1000" = none := by
  decide

/-- Claim C2, counterexample.  The claim states that the Daily Average
formula in F2 computes the sum of the sheet's entire local-currency
column divided by days_count.  On a run with two data rows and one prior
sheet the generated formula is the string dividing cell E2 alone by 1;
on a grid where the column holds 1 and 5 it evaluates to 1, while the
column total divided by days_count is 6. -/
theorem c2_daily_average_divides_single_cell :
    getCell (lastSheet (add_daily_sheet [priorSheet] [sale100, sale200] (some 10) "2024-01-02")).rows 2 6
      = Cell.str "=E2/1"
  ∧ evalFormula gTwoRows "=E2/1" = some 1
  ∧ (sumCells gTwoRows 'E' (rangeRows 2 3)).bind (fun t => some (t / 1)) = some 6
  ∧ evalFormula gTwoRows "=E2/1"
      ≠ (sumCells gTwoRows 'E' (rangeRows 2 3)).bind (fun t => some (t / 1)) := by
  decide

/-- Claim C2, amended.  For every run, the Daily Average cell F2 of the
new sheet holds the formula dividing cell E2 — the first data row's
local-currency cell — by days_count; it is not a sum over the whole
column. -/
theorem c2_amended_daily_average_formula (wb : Workbook) (data : List Sale)
    (usd_rate : Option Int) (sheet_name : String) :
    getCell (lastSheet (add_daily_sheet wb data usd_rate sheet_name)).rows 2 6
      = Cell.str ("=E2/" ++ toString (days_count (wb.map Sheet.title ++ [sheet_name]) sheet_name)) := by
  rw [add_daily_sheet_eq, lastSheet_append, getCell_calculate_financials_F2]

/-- Claim C3.  For every run, the Cumulative Total cell G2 of the new
sheet holds the formula summing this sheet's local-currency column from
row 2 through the last populated row (1 + number of sales), stored as a
formula string and not as a numeric scalar. -/
theorem c3_cumulative_total_sums_own_column (wb : Workbook) (data : List Sale)
    (usd_rate : Option Int) (sheet_name : String) :
    getCell (lastSheet (add_daily_sheet wb data usd_rate sheet_name)).rows 2 7
      = Cell.str ("=SUM(E2:E" ++ toString (1 + data.length) ++ ")")
  ∧ ∀ n : Int,
      getCell (lastSheet (add_daily_sheet wb data usd_rate sheet_name)).rows 2 7 ≠ Cell.int n := by
  have hcell : getCell (lastSheet (add_daily_sheet wb data usd_rate sheet_name)).rows 2 7
      = Cell.str ("=SUM(E2:E" ++ toString (1 + data.length) ++ ")") := by
    rw [add_daily_sheet_eq, lastSheet_append, getCell_calculate_financials_G2]
    have hlen : (appendSaleRows usd_rate data [headerRow]).length = 1 + data.length := by
      rw [appendSaleRows_length]
      simp
    rw [show (⟨sheet_name, appendSaleRows usd_rate data [headerRow]⟩ : Sheet).rows
        = appendSaleRows usd_rate data [headerRow] from rfl, hlen]
  refine ⟨hcell, fun n h => ?_⟩
  rw [hcell] at h
  exact Cell.noConfusion h

/-- Claim C4.  When the very first sheet of a fresh workbook is created,
the sheet count excluding the new sheet's own name is 0, the Daily
Average formula written into F2 is division by zero, and that formula has
no value (a division-by-zero error) under every grid valuation: nothing
in the code guards the zero denominator. -/
theorem c4_first_sheet_division_by_zero (data : List Sale) (usd_rate : Option Int)
    (sheet_name : String) :
    days_count [sheet_name] sheet_name = 0
  ∧ getCell (lastSheet (add_daily_sheet (salesReportExcel_init none) data usd_rate sheet_name)).rows 2 6
      = Cell.str "=E2/0"
  ∧ ∀ g : Char → Nat → Option Int, evalFormula g "=E2/0" = none := by
  have hdc : days_count [sheet_name] sheet_name = 0 := by
    simp [days_count]
  refine ⟨hdc, ?_, ?_⟩
  · rw [add_daily_sheet_eq, lastSheet_append, getCell_calculate_financials_F2]
    have h5 : (Cell.str ("=E2/" ++ toString
          (days_count ((salesReportExcel_init none).map Sheet.title ++ [sheet_name])
            (Sheet.title (⟨sheet_name, appendSaleRows usd_rate data [headerRow]⟩ : Sheet)))) : Cell)
        = Cell.str ("=E2/" ++ toString (days_count [sheet_name] sheet_name)) := rfl
    rw [h5, hdc]
    rfl
  · intro g
    show (parseFormula "=E2/0").bind (evalFExpr g) = none
    rw [show parseFormula "=E2/0" = some (FExpr.cellDivLit 'E' 2 (some 0)) from by decide]
    show evalFExpr g (FExpr.cellDivLit 'E' 2 (some 0)) = none
    cases hg : g 'E' 2 <;> simp [evalFExpr, hg]

/-- Claim C5.  When the sales fetch returns an empty sequence, the
dispatcher terminates without creating a sheet (the in-memory workbook is
exactly the loaded one), without saving (the file content is unchanged),
and without sending any email. -/
theorem c5_empty_sales_short_circuits (disk : Option Workbook) (usd_rate : Option Int)
    (today : String) :
    generate_report disk [] usd_rate today
      = ⟨salesReportExcel_init disk, disk, []⟩ := rfl

/-- Claim C6.  The rate lookup never propagates an exception: for every
HTTP outcome, either the body of the try block succeeds and the function
returns exactly the extracted value at oficial.value_avg, or the body
raises and the function returns the explicit absent result. -/
theorem c6_rate_lookup_never_raises (resp : HttpResponse) :
    (∃ v, rate_attempt resp = Except.ok v ∧ get_historical_rate resp = some v)
  ∨ (∃ e, rate_attempt resp = Except.error e ∧ get_historical_rate resp = none) := by
  cases h : rate_attempt resp with
  | ok v => exact Or.inl ⟨v, rfl, by simp [get_historical_rate, h]⟩
  | error e => exact Or.inr ⟨e, rfl, by simp [get_historical_rate, h]⟩

/-- Claim C7.  With a non-empty sales list and an absent rate, the run
still creates and saves the sheet and sends the email; each data row's
local-currency formula carries the interpolated text None as multiplier,
and such a formula has no numeric value under any grid valuation (the
multiplier literal is undefined). -/
theorem c7_absent_rate_still_saves (disk : Option Workbook) (sales : List Sale)
    (today : String) (h : sales ≠ []) :
    (generate_report disk sales none today).finalDisk
      = some (add_daily_sheet (salesReportExcel_init disk) sales none today)
  ∧ (generate_report disk sales none today).emailsSent = ["finanzas@empresa.com"]
  ∧ (∀ i, i < sales.length →
      getCell (lastSheet (add_daily_sheet (salesReportExcel_init disk) sales none today)).rows (i + 2) 5
        = Cell.str ("=C" ++ toString (i + 1) ++ "*" ++ "None"))
  ∧ (∀ g : Char → Nat → Option Int, evalFormula g "=C1*None" = none) := by
  have hne : sales.isEmpty = false := by
    cases sales with
    | nil => exact absurd rfl h
    | cons s rest => rfl
  refine ⟨by simp [generate_report, hne], by simp [generate_report, hne], ?_, ?_⟩
  · intro i hi
    rw [add_daily_sheet_eq, lastSheet_append,
      getCell_calculate_financials_of_ne _ _ _ _ (by omega) (by omega)]
    show getAt Cell.empty (getAt [] (appendSaleRows none sales [headerRow]) (i + 2 - 1)) 4
      = Cell.str ("=C" ++ toString (i + 1) ++ "*" ++ "None")
    have hidx : i + 2 - 1 = [headerRow].length + i := by simp; omega
    rw [hidx, getAt_appendSaleRows_data none sales [headerRow] i hi]
    show Cell.str ("=C" ++ toString ([headerRow].length + i) ++ "*" ++ pyRate none)
      = Cell.str ("=C" ++ toString (i + 1) ++ "*" ++ "None")
    rw [show [headerRow].length + i = i + 1 from by simp; omega]
    rfl
  · intro g
    show (parseFormula "=C1*None").bind (evalFExpr g) = none
    rw [show parseFormula "=C1*None" = some (FExpr.cellMulLit 'C' 1 none) from by decide]
    show evalFExpr g (FExpr.cellMulLit 'C' 1 none) = none
    cases hg : g 'C' 1 <;> simp [evalFExpr, hg]

/-- Claim C7, witness at a concrete input: one sale, absent rate, empty
workbook file on disk. -/
theorem c7_absent_rate_still_saves_witness :
    (generate_report (some []) [sale100] none "2024-01-02").finalDisk
      = some (add_daily_sheet (salesReportExcel_init (some [])) [sale100] none "2024-01-02")
  ∧ (generate_report (some []) [sale100] none "2024-01-02").emailsSent
      = ["finanzas@empresa.com"] :=
  ⟨(c7_absent_rate_still_saves (some []) [sale100] "2024-01-02" (by decide)).1,
   (c7_absent_rate_still_saves (some []) [sale100] "2024-01-02" (by decide)).2.1⟩

/-- Claim C8, counterexample.  The claim states that every run appends
exactly one new sheet.  A run whose sales fetch is empty appends none:
starting from a one-sheet workbook file, the file is unchanged and the
in-memory workbook still has one sheet, not two. -/
theorem c8_empty_run_appends_no_sheet :
    (generate_report (some [priorSheet]) [] (some 5) "2024-01-02").finalDisk
      = some [priorSheet]
  ∧ (generate_report (some [priorSheet]) [] (some 5) "2024-01-02").memWorkbook.length
      ≠ (salesReportExcel_init (some [priorSheet])).length + 1 := by
  decide

/-- Claim C8, amended.  A run with empty sales leaves the workbook
untouched; a run with non-empty sales appends exactly one new sheet —
the loaded sheets are preserved verbatim as the front of the workbook —
and saves exactly that workbook.  No existing sheet is ever deleted,
renamed, or modified. -/
theorem c8_amended_append_only (disk : Option Workbook) (sales : List Sale)
    (usd_rate : Option Int) (today : String) :
    (sales = [] →
      generate_report disk sales usd_rate today
        = ⟨salesReportExcel_init disk, disk, []⟩)
  ∧ (sales ≠ [] →
      (generate_report disk sales usd_rate today).memWorkbook.dropLast
          = salesReportExcel_init disk
      ∧ (generate_report disk sales usd_rate today).memWorkbook.length
          = (salesReportExcel_init disk).length + 1
      ∧ (generate_report disk sales usd_rate today).finalDisk
          = some ((generate_report disk sales usd_rate today).memWorkbook)) := by
  constructor
  · intro h
    subst h
    rfl
  · intro h
    have hne : sales.isEmpty = false := by
      cases sales with
      | nil => exact absurd rfl h
      | cons s rest => rfl
    have hmem : (generate_report disk sales usd_rate today).memWorkbook
        = salesReportExcel_init disk
          ++ [calculate_financials
                ((salesReportExcel_init disk).map Sheet.title ++ [today])
                ⟨today, appendSaleRows usd_rate sales [headerRow]⟩] := by
      simp [generate_report, hne, add_daily_sheet_eq]
    refine ⟨?_, ?_, ?_⟩
    · rw [hmem]
      exact List.dropLast_concat
    · rw [hmem]
      simp
    · simp [generate_report, hne]

/-- Claim C8, witness: a run with one sale on a one-sheet workbook. -/
theorem c8_amended_append_only_witness :
    (generate_report (some [priorSheet]) [sale200] (some 5) "2024-01-02").memWorkbook.dropLast
        = salesReportExcel_init (some [priorSheet])
  ∧ (generate_report (some [priorSheet]) [sale200] (some 5) "2024-01-02").memWorkbook.length
        = (salesReportExcel_init (some [priorSheet])).length + 1
  ∧ (generate_report (some [priorSheet]) [sale200] (some 5) "2024-01-02").finalDisk
        = some ((generate_report (some [priorSheet]) [sale200] (some 5) "2024-01-02").memWorkbook) :=
  (c8_amended_append_only (some [priorSheet]) [sale200] (some 5) "2024-01-02").2 (by decide)

/-- Across a sequence of runs, the sheet titles on disk are the initial
titles followed by the dates of exactly the runs whose sales were
non-empty, in order. -/
lemma titlesOfDisk_runMany (runs : List RunInput) (disk : Option Workbook) :
    titlesOfDisk (runMany disk runs)
      = titlesOfDisk disk ++ (runs.filter (fun r => !r.1.isEmpty)).map (fun r => r.2.2) := by
  induction runs generalizing disk with
  | nil => simp [runMany, titlesOfDisk]
  | cons r rest ih =>
    show titlesOfDisk (runMany (generate_report disk r.1 r.2.1 r.2.2).finalDisk rest) = _
    rw [ih]
    cases hre : r.1.isEmpty with
    | true =>
      have hdisk : (generate_report disk r.1 r.2.1 r.2.2).finalDisk = disk := by
        simp [generate_report, hre]
      rw [hdisk]
      simp [List.filter, hre]
    | false =>
      have hdisk : (generate_report disk r.1 r.2.1 r.2.2).finalDisk
          = some (add_daily_sheet (salesReportExcel_init disk) r.1 r.2.1 r.2.2) := by
        simp [generate_report, hre]
      rw [hdisk, add_daily_sheet_eq]
      simp [titlesOfDisk, List.filter, hre, salesReportExcel_init_eq,
        calculate_financials_title]

/-- Claim C9.  A missing workbook file yields a workbook with zero sheets
(the default blank sheet is removed); consequently, after any sequence of
runs starting from a missing file, the sheets on disk are exactly the
date-named sheets appended by the runs that had sales, and the sheet
count excluding the first sheet's own name — the first run's days_count —
is 0. -/
theorem c9_fresh_workbook_has_no_sheets :
    salesReportExcel_init none = []
  ∧ (∀ runs : List RunInput,
      titlesOfDisk (runMany none runs)
        = (runs.filter (fun r => !r.1.isEmpty)).map (fun r => r.2.2))
  ∧ (∀ sheet_name : String, days_count [sheet_name] sheet_name = 0) := by
  refine ⟨rfl, fun runs => ?_, fun sheet_name => ?_⟩
  · simpa [titlesOfDisk] using titlesOfDisk_runMany runs none
  · simp [days_count]

/-- Claim C10.  Calling add_daily_sheet directly with an empty sales list
still appends a new sheet holding just the header row, with the two
summary formulas written into row 2 and the Cumulative Total summing the
empty range E2:E1 (last_row is 1, the header row); the range E2:E1 is
empty, so under any grid valuation the formula sums to 0. -/
theorem c10_empty_sales_still_creates_sheet (wb : Workbook) (usd_rate : Option Int)
    (sheet_name : String) :
    add_daily_sheet wb [] usd_rate sheet_name
      = wb ++ [⟨sheet_name,
          [headerRow,
           [Cell.empty, Cell.empty, Cell.empty, Cell.empty, Cell.empty,
            Cell.str ("=E2/" ++ toString
              (days_count (wb.map Sheet.title ++ [sheet_name]) sheet_name)),
            Cell.str "=SUM(E2:E1)"]]⟩]
  ∧ (∀ g : Char → Nat → Option Int, evalFormula g "=SUM(E2:E1)" = some 0) := by
  constructor
  · rw [add_daily_sheet_eq]
    have h2 : calculate_financials (List.map Sheet.title wb ++ [sheet_name])
          ⟨sheet_name, appendSaleRows usd_rate [] [headerRow]⟩
        = ⟨sheet_name,
           setCell (setCell [headerRow] 2 6
               (Cell.str ("=E2/" ++ toString
                 (days_count (List.map Sheet.title wb ++ [sheet_name]) sheet_name)))) 2 7
             (Cell.str ("=SUM(E2:E" ++ toString (1 : Nat) ++ ")"))⟩ := rfl
    have h3 : ("=SUM(E2:E" ++ toString (1 : Nat) ++ ")") = "=SUM(E2:E1)" := rfl
    have h4 : ∀ v w : Cell, setCell (setCell [headerRow] 2 6 v) 2 7 w
        = [headerRow, [Cell.empty, Cell.empty, Cell.empty, Cell.empty, Cell.empty, v, w]] :=
      fun v w => rfl
    rw [h2, h3, h4]
  · intro g
    rfl
